import Mathlib

/-!
Verification of the Helios session-management shell (`src/src-tauri/src/helios.rs`).

The shell owns a process-wide `Mutex<Option<EthereumClient>>` and exposes two
commands, `start_helios` and `get_latest_block`, that delegate to an external
light-client library.  We embed the shell shallowly: the external collaborator
(client builder, client start, sync wait, block read, JSON serialization) is an
abstract environment `Env`, and each command is a pure function from the
environment and the current registry state to an `Outcome` recording the
returned `Result`, the registry state after the call, and an ordered trace of
the externally visible events (external-library calls, lock acquisition and
release, and handle installation), in the order the source performs them.
-/

namespace Krome

/-- Networks known to `get_network`; the source maps only chain id 1. -/
inductive Network where
  | Mainnet
deriving DecidableEq, Repr

/-- Block tags of the external library; the shell only ever uses `Latest`. -/
inductive BlockTag where
  | Latest
  | Finalized
  | Number (n : Nat)
deriving DecidableEq, Repr

/-- `fn get_network(chain_id: u64) -> Result<Network, String>`:
chain id 1 maps to mainnet, everything else is an error. -/
def get_network (chain_id : Nat) : Except String Network :=
  match chain_id with
  | 1 => Except.ok Network.Mainnet
  | _ => Except.error ("Unsupported chain ID: " ++ toString chain_id)

/-- The configuration handed to `EthereumClientBuilder::new().network(..)
.execution_rpc(..).consensus_rpc(..).data_dir(..).build()`.  A data directory
is a list of path components (`PathBuf::join` appends a component). -/
structure BuildConfig where
  network : Network
  execution_rpc : String
  consensus_rpc : String
  data_dir : List String
deriving DecidableEq, Repr

/-- The external collaborators of the shell, as an abstract environment:
the host's path resolver (`app_handle.path_resolver().app_data_dir()`),
the client builder, the client's async `start`, the block read
`get_block_by_number`, and `serde_json::to_value`.  `C` is the client type,
`B` the block type, `V` the serialized-value type.  `wait_synced` returns
unit and cannot fail, so it needs no field. -/
structure Env (C B V : Type) where
  app_data_dir : Option (List String)
  build : BuildConfig → Except String C
  start : C → Except String Unit
  get_block_by_number : C → BlockTag → Bool → Except String B
  to_value : B → Except String V

/-- The registry payload: `HeliosState(pub Mutex<Option<EthereumClient<FileDB>>>)`.
We model the contents of the mutex; lock and unlock show up as trace events. -/
abbrev HeliosState (C : Type) := Option C

/-- Externally visible events of one command execution, in program order. -/
inductive Event (C : Type) where
  | lock
  | unlock
  | build (cfg : BuildConfig)
  | clientStart (c : C)
  | waitSynced (c : C)
  | getBlockByNumber (c : C) (tag : BlockTag) (full_tx : Bool)
  | install (c : C)
deriving DecidableEq, Repr

/-- Result of one command: the returned `Result`, the registry state after the
call, and the ordered event trace. -/
structure Outcome (C α : Type) where
  ret : Except String α
  state : HeliosState C
  trace : List (Event C)

/-- `start_helios`: resolve the app data directory (joined with `"helios"`),
default the consensus RPC, then inside the runtime resolve the network, build
the client, start it, wait for sync; on success take the lock and install the
client, on any error leave the registry untouched.  Faithful to the source's
order: the data directory is resolved (and its failure returned) before the
chain id is examined. -/
def start_helios {C B V : Type} (env : Env C B V) (st : HeliosState C)
    (rpc_url : String) (consensus_rpc : Option String) (chain_id : Nat) :
    Outcome C Unit :=
  match env.app_data_dir with
  | none => ⟨Except.error "could not resolve the app data directory", st, []⟩
  | some base =>
    let data_dir := base ++ ["helios"]
    let crpc := consensus_rpc.getD "https://www.lightclientdata.org"
    match get_network chain_id with
    | Except.error e => ⟨Except.error e, st, []⟩
    | Except.ok network =>
      let cfg : BuildConfig := ⟨network, rpc_url, crpc, data_dir⟩
      match env.build cfg with
      | Except.error e =>
        ⟨Except.error ("Failed to build client: " ++ e), st, [Event.build cfg]⟩
      | Except.ok client =>
        match env.start client with
        | Except.error e =>
          ⟨Except.error ("Failed to start client: " ++ e), st,
            [Event.build cfg, Event.clientStart client]⟩
        | Except.ok _ =>
          ⟨Except.ok (), some client,
            [Event.build cfg, Event.clientStart client, Event.waitSynced client,
             Event.lock, Event.install client, Event.unlock]⟩

/-- `get_latest_block`: take the lock; if no client is installed fail with
`"Client not started"`; otherwise read the latest block without full
transaction bodies and serialize it.  In the source the mutex guard lives for
the whole async block, so the unlock event comes after the read and the
serialization. -/
def get_latest_block {C B V : Type} (env : Env C B V) (st : HeliosState C) :
    Outcome C V :=
  match st with
  | none => ⟨Except.error "Client not started", st, [Event.lock, Event.unlock]⟩
  | some client =>
    match env.get_block_by_number client BlockTag.Latest false with
    | Except.error e =>
      ⟨Except.error ("Failed to get block: " ++ e), st,
        [Event.lock, Event.getBlockByNumber client BlockTag.Latest false,
         Event.unlock]⟩
    | Except.ok block =>
      match env.to_value block with
      | Except.ok v =>
        ⟨Except.ok v, st,
          [Event.lock, Event.getBlockByNumber client BlockTag.Latest false,
           Event.unlock]⟩
      | Except.error e =>
        ⟨Except.error ("Serialization error: " ++ e), st,
          [Event.lock, Event.getBlockByNumber client BlockTag.Latest false,
           Event.unlock]⟩

/-- Whether an event is a call into the external light-client library. -/
def isExternalCall {C : Type} : Event C → Bool
  | Event.build _ => true
  | Event.clientStart _ => true
  | Event.waitSynced _ => true
  | Event.getBlockByNumber _ _ _ => true
  | _ => false

/-- The external-library calls of a trace, in order. -/
def externalCalls {C : Type} (tr : List (Event C)) : List (Event C) :=
  tr.filter isExternalCall

/-- Scans a trace keeping the current lock depth; `true` iff some external
call happens while the lock is held. -/
def callsUnderLockFrom {C : Type} : Nat → List (Event C) → Bool
  | _, [] => false
  | d, Event.lock :: r => callsUnderLockFrom (d + 1) r
  | d, Event.unlock :: r => callsUnderLockFrom (d - 1) r
  | d, e :: r => (isExternalCall e && decide (0 < d)) || callsUnderLockFrom d r

/-- Whether a trace contains an external call made while the lock is held. -/
def callsUnderLock {C : Type} (tr : List (Event C)) : Bool :=
  callsUnderLockFrom 0 tr

/-- `needle` is a prefix of `hay`. -/
def listStartsWith {α : Type} [DecidableEq α] : List α → List α → Bool
  | [], _ => true
  | _ :: _, [] => false
  | x :: xs, y :: ys => decide (x = y) && listStartsWith xs ys

/-- `needle` occurs contiguously inside `hay`. -/
def listHasInfix {α : Type} [DecidableEq α] (needle : List α) : List α → Bool
  | [] => listStartsWith needle []
  | y :: ys => listStartsWith needle (y :: ys) || listHasInfix needle ys

/-- `needle` occurs as a substring of `hay`. -/
def strContains (hay needle : String) : Bool :=
  listHasInfix needle.data hay.data

/-- Concrete environment whose path resolver fails to produce a directory. -/
def envNoDir : Env Nat Nat Nat :=
  ⟨none, fun _ => Except.ok 7, fun _ => Except.ok (),
    fun _ _ _ => Except.ok 42, fun b => Except.ok b⟩

/-- Concrete environment where every external operation succeeds: the builder
returns client 7, the latest block is 42, serialization is the identity. -/
def envGood : Env Nat Nat Nat :=
  ⟨some ["data"], fun _ => Except.ok 7, fun _ => Except.ok (),
    fun _ _ _ => Except.ok 42, fun b => Except.ok b⟩

/-- Concrete environment whose client builder rejects the configuration. -/
def envBuildFail : Env Nat Nat Nat :=
  ⟨some ["data"], fun _ => Except.error "boom", fun _ => Except.ok (),
    fun _ _ _ => Except.ok 42, fun b => Except.ok b⟩

/-- Concrete environment whose block read fails with cause `"net"`. -/
def envReadFail : Env Nat Nat Nat :=
  ⟨some ["data"], fun _ => Except.ok 7, fun _ => Except.ok (),
    fun _ _ _ => Except.error "net", fun b => Except.ok b⟩

/-- Concrete environment where serialization fails with cause `"cyc"`. -/
def envSerFail : Env Nat Nat Nat :=
  ⟨some ["data"], fun _ => Except.ok 7, fun _ => Except.ok (),
    fun _ _ _ => Except.ok 42, fun _ => Except.error "cyc"⟩

/-- For every chain id other than 1, `get_network` returns exactly the
unsupported-chain error message. -/
theorem get_network_unsupported (chain_id : Nat) (h : chain_id ≠ 1) :
    get_network chain_id
      = Except.error ("Unsupported chain ID: " ++ toString chain_id) := by
  unfold get_network
  split
  · simp_all
  · rfl

/-- C1 counterexample: with chain id 5 but an unresolvable data directory,
start_helios fails with the data-directory message, which does not contain
"Unsupported chain ID: 5" — so the claim as stated (every chain id other
than 1 yields an error containing that text) is false. -/
theorem C1_counterexample :
    (start_helios envNoDir (none : HeliosState Nat) "http://rpc" none 5).ret
      = Except.error "could not resolve the app data directory"
    ∧ strContains "could not resolve the app data directory"
        "Unsupported chain ID: 5" = false := by
  exact ⟨rfl, by decide⟩

/-- C1 (amended): provided the app data directory resolves, for every chain id
other than 1 start_helios fails with exactly the message
"Unsupported chain ID: <id>", the registry state is unchanged, and no external
call is made. -/
theorem C1_unsupported_chain_fails {C B V : Type} (env : Env C B V)
    (st : HeliosState C) (rpc : String) (crpc : Option String)
    (chain_id : Nat) (base : List String)
    (hdir : env.app_data_dir = some base) (hid : chain_id ≠ 1) :
    (start_helios env st rpc crpc chain_id).ret
      = Except.error ("Unsupported chain ID: " ++ toString chain_id)
    ∧ (start_helios env st rpc crpc chain_id).state = st
    ∧ (start_helios env st rpc crpc chain_id).trace = [] := by
  have hnet := get_network_unsupported chain_id hid
  refine ⟨?_, ?_, ?_⟩ <;> simp [start_helios, hdir, hnet]

/-- C1 witness: chain id 5 with a resolvable data directory and a previously
installed handle 3. -/
theorem C1_witness :
    (start_helios envGood (some 3 : HeliosState Nat) "http://rpc" none 5).ret
      = Except.error ("Unsupported chain ID: " ++ toString 5)
    ∧ (start_helios envGood (some 3 : HeliosState Nat) "http://rpc" none 5).state
        = some 3
    ∧ (start_helios envGood (some 3 : HeliosState Nat) "http://rpc" none 5).trace
        = [] :=
  C1_unsupported_chain_fails envGood (some 3) "http://rpc" none 5 ["data"]
    rfl (by decide)

/-- C2: start_helios is atomic on failure — whenever it returns an error, the
registry state after the call is exactly the state before it. -/
theorem C2_start_atomic_on_failure {C B V : Type} (env : Env C B V)
    (st : HeliosState C) (rpc : String) (crpc : Option String)
    (chain_id : Nat) (e : String)
    (h : (start_helios env st rpc crpc chain_id).ret = Except.error e) :
    (start_helios env st rpc crpc chain_id).state = st := by
  cases hd : env.app_data_dir with
  | none => simp [start_helios, hd]
  | some base =>
    cases hn : get_network chain_id with
    | error e2 => simp [start_helios, hd, hn]
    | ok nw =>
      cases hb : env.build
          ⟨nw, rpc, crpc.getD "https://www.lightclientdata.org",
            base ++ ["helios"]⟩ with
      | error e2 => simp [start_helios, hd, hn, hb]
      | ok c =>
        cases hs : env.start c with
        | error e2 => simp [start_helios, hd, hn, hb, hs]
        | ok u =>
          cases u
          simp [start_helios, hd, hn, hb, hs] at h

/-- C2 witness: a failing build with a previously installed handle 3 leaves
the handle in place. -/
theorem C2_witness :
    (start_helios envBuildFail (some 3 : HeliosState Nat) "u" none 1).ret
      = Except.error "Failed to build client: boom"
    ∧ (start_helios envBuildFail (some 3 : HeliosState Nat) "u" none 1).state
        = some 3 :=
  ⟨rfl, C2_start_atomic_on_failure envBuildFail (some 3) "u" none 1
    "Failed to build client: boom" rfl⟩

/-- C3: with no handle installed, get_latest_block fails with
"Client not started", leaves the state empty, and performs no external call. -/
theorem C3_not_started {C B V : Type} (env : Env C B V) :
    (get_latest_block env (none : HeliosState C)).ret
      = Except.error "Client not started"
    ∧ (get_latest_block env (none : HeliosState C)).state = none
    ∧ externalCalls (get_latest_block env (none : HeliosState C)).trace = [] :=
  ⟨rfl, rfl, rfl⟩

/-- C4: with an installed handle, get_latest_block makes exactly one external
call — a read of the Latest block without full transaction bodies — and when
the read and the serialization both succeed it returns the serialized block. -/
theorem C4_reads_latest_once {C B V : Type} (env : Env C B V) (c : C) :
    externalCalls (get_latest_block env (some c)).trace
      = [Event.getBlockByNumber c BlockTag.Latest false]
    ∧ ∀ b v, env.get_block_by_number c BlockTag.Latest false = Except.ok b →
        env.to_value b = Except.ok v →
        (get_latest_block env (some c)).ret = Except.ok v := by
  constructor
  · cases hb : env.get_block_by_number c BlockTag.Latest false with
    | error e => simp [get_latest_block, externalCalls, isExternalCall, hb]
    | ok b =>
      cases hv : env.to_value b with
      | error e => simp [get_latest_block, externalCalls, isExternalCall, hb, hv]
      | ok v => simp [get_latest_block, externalCalls, isExternalCall, hb, hv]
  · intro b v hb hv
    simp [get_latest_block, hb, hv]

/-- C4 witness: in the all-success environment, handle 7 yields one Latest
read and the serialized block 42. -/
theorem C4_witness :
    externalCalls (get_latest_block envGood (some 7 : HeliosState Nat)).trace
      = [Event.getBlockByNumber 7 BlockTag.Latest false]
    ∧ envGood.get_block_by_number 7 BlockTag.Latest false = Except.ok 42
    ∧ envGood.to_value 42 = Except.ok 42
    ∧ (get_latest_block envGood (some 7 : HeliosState Nat)).ret
        = Except.ok 42 :=
  ⟨(C4_reads_latest_once envGood 7).1, rfl, rfl,
    (C4_reads_latest_once envGood 7).2 42 42 rfl rfl⟩

/-- C5: with an installed handle, a failing read yields the error
"Failed to get block: <cause>", a failing serialization after a successful
read yields "Serialization error: <cause>", and in every case the registry
state is unchanged. -/
theorem C5_query_errors {C B V : Type} (env : Env C B V) (c : C) :
    (∀ e, env.get_block_by_number c BlockTag.Latest false = Except.error e →
        (get_latest_block env (some c)).ret
          = Except.error ("Failed to get block: " ++ e))
    ∧ (∀ b e, env.get_block_by_number c BlockTag.Latest false = Except.ok b →
        env.to_value b = Except.error e →
        (get_latest_block env (some c)).ret
          = Except.error ("Serialization error: " ++ e))
    ∧ (get_latest_block env (some c)).state = some c := by
  refine ⟨?_, ?_, ?_⟩
  · intro e hb
    simp [get_latest_block, hb]
  · intro b e hb hv
    simp [get_latest_block, hb, hv]
  · cases hb : env.get_block_by_number c BlockTag.Latest false with
    | error e => simp [get_latest_block, hb]
    | ok b =>
      cases hv : env.to_value b with
      | error e => simp [get_latest_block, hb, hv]
      | ok v => simp [get_latest_block, hb, hv]

/-- C5 witness: the read-failure environment yields the query error, the
serialization-failure environment yields the serialization error, and the
handle is untouched. -/
theorem C5_witness :
    envReadFail.get_block_by_number 7 BlockTag.Latest false
      = Except.error "net"
    ∧ (get_latest_block envReadFail (some 7 : HeliosState Nat)).ret
        = Except.error ("Failed to get block: " ++ "net")
    ∧ envSerFail.to_value 42 = Except.error "cyc"
    ∧ (get_latest_block envSerFail (some 7 : HeliosState Nat)).ret
        = Except.error ("Serialization error: " ++ "cyc")
    ∧ (get_latest_block envReadFail (some 7 : HeliosState Nat)).state
        = some 7 :=
  ⟨rfl, (C5_query_errors envReadFail 7).1 "net" rfl, rfl,
    (C5_query_errors envSerFail 7).2.1 42 "cyc" rfl rfl,
    (C5_query_errors envReadFail 7).2.2⟩

/-- C6: whenever start_helios succeeds, the installed handle is a client for
which the builder succeeded and start succeeded, and the trace shows the
installation (under the lock) strictly after clientStart and waitSynced — so
no operation can observe a half-constructed handle. -/
theorem C6_install_after_sync {C B V : Type} (env : Env C B V)
    (st : HeliosState C) (rpc : String) (crpc : Option String)
    (chain_id : Nat)
    (h : (start_helios env st rpc crpc chain_id).ret = Except.ok ()) :
    ∃ cfg c, env.build cfg = Except.ok c
      ∧ env.start c = Except.ok ()
      ∧ (start_helios env st rpc crpc chain_id).state = some c
      ∧ (start_helios env st rpc crpc chain_id).trace
          = [Event.build cfg, Event.clientStart c, Event.waitSynced c,
             Event.lock, Event.install c, Event.unlock] := by
  cases hd : env.app_data_dir with
  | none => simp [start_helios, hd] at h
  | some base =>
    cases hn : get_network chain_id with
    | error e2 => simp [start_helios, hd, hn] at h
    | ok nw =>
      cases hb : env.build
          ⟨nw, rpc, crpc.getD "https://www.lightclientdata.org",
            base ++ ["helios"]⟩ with
      | error e2 => simp [start_helios, hd, hn, hb] at h
      | ok c =>
        cases hs : env.start c with
        | error e2 => simp [start_helios, hd, hn, hb, hs] at h
        | ok u =>
          cases u
          refine ⟨_, c, hb, hs, ?_, ?_⟩
          · simp [start_helios, hd, hn, hb, hs]
          · simp [start_helios, hd, hn, hb, hs]

/-- C6 witness: a fresh successful start in the all-success environment
installs client 7 with the full build-start-sync-install trace. -/
theorem C6_witness :
    (start_helios envGood (none : HeliosState Nat) "u" none 1).ret
      = Except.ok ()
    ∧ ∃ cfg c, envGood.build cfg = Except.ok c
      ∧ envGood.start c = Except.ok ()
      ∧ (start_helios envGood (none : HeliosState Nat) "u" none 1).state
          = some c
      ∧ (start_helios envGood (none : HeliosState Nat) "u" none 1).trace
          = [Event.build cfg, Event.clientStart c, Event.waitSynced c,
             Event.lock, Event.install c, Event.unlock] :=
  ⟨rfl, C6_install_after_sync envGood none "u" none 1 rfl⟩

/-- C7 counterexample: with an installed handle, the trace of get_latest_block
contains the block-read call made while the lock is held — refuting the claim
that the lock is never held across the network suspension of the read. -/
theorem C7_counterexample :
    ¬ (callsUnderLock
        (get_latest_block envGood (some 7 : HeliosState Nat)).trace
      = false) := by
  decide

/-- C7 (amended): the registry lock IS held across the block read in
get_latest_block (the guard lives for the whole async block), while in
start_helios no external call is ever made under the lock — the lock is taken
only for the final synchronous installation. -/
theorem C7_lock_discipline {C B V : Type} (env : Env C B V) (c : C)
    (env2 : Env C B V) (st : HeliosState C) (rpc : String)
    (crpc : Option String) (chain_id : Nat) :
    callsUnderLock (get_latest_block env (some c)).trace = true
    ∧ callsUnderLock (start_helios env2 st rpc crpc chain_id).trace
        = false := by
  constructor
  · cases hb : env.get_block_by_number c BlockTag.Latest false with
    | error e =>
      simp [get_latest_block, hb, callsUnderLock, callsUnderLockFrom,
        isExternalCall]
    | ok b =>
      cases hv : env.to_value b with
      | error e =>
        simp [get_latest_block, hb, hv, callsUnderLock, callsUnderLockFrom,
          isExternalCall]
      | ok v =>
        simp [get_latest_block, hb, hv, callsUnderLock, callsUnderLockFrom,
          isExternalCall]
  · cases hd : env2.app_data_dir with
    | none => simp [start_helios, hd, callsUnderLock, callsUnderLockFrom]
    | some base =>
      cases hn : get_network chain_id with
      | error e2 =>
        simp [start_helios, hd, hn, callsUnderLock, callsUnderLockFrom]
      | ok nw =>
        cases hb : env2.build
            ⟨nw, rpc, crpc.getD "https://www.lightclientdata.org",
              base ++ ["helios"]⟩ with
        | error e2 =>
          simp [start_helios, hd, hn, hb, callsUnderLock, callsUnderLockFrom,
            isExternalCall]
        | ok c2 =>
          cases hs : env2.start c2 with
          | error e2 =>
            simp [start_helios, hd, hn, hb, hs, callsUnderLock,
              callsUnderLockFrom, isExternalCall]
          | ok u =>
            cases u
            simp [start_helios, hd, hn, hb, hs, callsUnderLock,
              callsUnderLockFrom, isExternalCall]

/-- C8: a start_helios call made while a handle is installed is permitted and,
on success, the registry holds exactly the client the second call built; the
trace contains only the new client's build, start, sync and installation (no
shutdown of the old instance), and a get_latest_block on the resulting state
reads the new client. -/
theorem C8_restart_replaces {C B V : Type} (env : Env C B V) (old : C)
    (rpc : String) (crpc : Option String) (chain_id : Nat)
    (h : (start_helios env (some old) rpc crpc chain_id).ret
        = Except.ok ()) :
    ∃ cfg c2, env.build cfg = Except.ok c2
      ∧ (start_helios env (some old) rpc crpc chain_id).state = some c2
      ∧ (start_helios env (some old) rpc crpc chain_id).trace
          = [Event.build cfg, Event.clientStart c2, Event.waitSynced c2,
             Event.lock, Event.install c2, Event.unlock]
      ∧ ∀ (env2 : Env C B V),
          externalCalls (get_latest_block env2 (some c2)).trace
            = [Event.getBlockByNumber c2 BlockTag.Latest false] := by
  cases hd : env.app_data_dir with
  | none => simp [start_helios, hd] at h
  | some base =>
    cases hn : get_network chain_id with
    | error e2 => simp [start_helios, hd, hn] at h
    | ok nw =>
      cases hb : env.build
          ⟨nw, rpc, crpc.getD "https://www.lightclientdata.org",
            base ++ ["helios"]⟩ with
      | error e2 => simp [start_helios, hd, hn, hb] at h
      | ok c2 =>
        cases hs : env.start c2 with
        | error e2 => simp [start_helios, hd, hn, hb, hs] at h
        | ok u =>
          cases u
          refine ⟨_, c2, hb, ?_, ?_, ?_⟩
          · simp [start_helios, hd, hn, hb, hs]
          · simp [start_helios, hd, hn, hb, hs]
          · intro env2
            cases hr : env2.get_block_by_number c2 BlockTag.Latest false with
            | error e3 =>
              simp [get_latest_block, externalCalls, isExternalCall, hr]
            | ok b =>
              cases hv : env2.to_value b with
              | error e3 =>
                simp [get_latest_block, externalCalls, isExternalCall, hr, hv]
              | ok v =>
                simp [get_latest_block, externalCalls, isExternalCall, hr, hv]

/-- C8 witness: restarting over installed handle 3 in the all-success
environment succeeds and replaces the handle. -/
theorem C8_witness :
    (start_helios envGood (some 3 : HeliosState Nat) "u" none 1).ret
      = Except.ok ()
    ∧ ∃ cfg c2, envGood.build cfg = Except.ok c2
      ∧ (start_helios envGood (some 3 : HeliosState Nat) "u" none 1).state
          = some c2
      ∧ (start_helios envGood (some 3 : HeliosState Nat) "u" none 1).trace
          = [Event.build cfg, Event.clientStart c2, Event.waitSynced c2,
             Event.lock, Event.install c2, Event.unlock]
      ∧ ∀ (env2 : Env Nat Nat Nat),
          externalCalls (get_latest_block env2 (some c2)).trace
            = [Event.getBlockByNumber c2 BlockTag.Latest false] :=
  ⟨rfl, C8_restart_replaces envGood 3 "u" none 1 rfl⟩

/-- C9: whatever configuration reaches the client builder carries the supplied
consensus RPC when one was given, and the default public endpoint
"https://www.lightclientdata.org" when the argument was absent. -/
theorem C9_consensus_default {C B V : Type} (env : Env C B V)
    (st : HeliosState C) (rpc : String) (crpc : Option String)
    (chain_id : Nat) (cfg : BuildConfig)
    (h : Event.build cfg ∈ (start_helios env st rpc crpc chain_id).trace) :
    (crpc = none → cfg.consensus_rpc = "https://www.lightclientdata.org")
    ∧ ∀ s, crpc = some s → cfg.consensus_rpc = s := by
  cases hd : env.app_data_dir with
  | none => simp [start_helios, hd] at h
  | some base =>
    cases hn : get_network chain_id with
    | error e2 => simp [start_helios, hd, hn] at h
    | ok nw =>
      cases hb : env.build
          ⟨nw, rpc, crpc.getD "https://www.lightclientdata.org",
            base ++ ["helios"]⟩ with
      | error e2 =>
        simp [start_helios, hd, hn, hb] at h
        subst h
        exact ⟨fun hcn => by subst hcn; rfl, fun s hcs => by subst hcs; rfl⟩
      | ok c =>
        cases hs : env.start c with
        | error e2 =>
          simp [start_helios, hd, hn, hb, hs] at h
          subst h
          exact ⟨fun hcn => by subst hcn; rfl, fun s hcs => by subst hcs; rfl⟩
        | ok u =>
          cases u
          simp [start_helios, hd, hn, hb, hs] at h
          subst h
          exact ⟨fun hcn => by subst hcn; rfl, fun s hcs => by subst hcs; rfl⟩

/-- C9 witness: a successful start with no consensus argument builds with the
default endpoint. -/
theorem C9_witness :
    Event.build
        ⟨Network.Mainnet, "u", "https://www.lightclientdata.org",
          ["data", "helios"]⟩
      ∈ (start_helios envGood (none : HeliosState Nat) "u" none 1).trace
    ∧ BuildConfig.consensus_rpc
        ⟨Network.Mainnet, "u", "https://www.lightclientdata.org",
          ["data", "helios"]⟩
      = "https://www.lightclientdata.org" :=
  ⟨by decide,
    (C9_consensus_default envGood none "u" none 1
      ⟨Network.Mainnet, "u", "https://www.lightclientdata.org",
        ["data", "helios"]⟩ (by decide)).1 rfl⟩

/-- C10: the data directory is resolved before the chain id is examined — an
unresolvable directory yields its own error for every chain id, including
unsupported ones — and any configuration that reaches the builder carries the
resolved app data directory joined with "helios". -/
theorem C10_datadir_precedence {C B V : Type} (env : Env C B V)
    (st : HeliosState C) (rpc : String) (crpc : Option String)
    (chain_id : Nat) :
    (env.app_data_dir = none →
        (start_helios env st rpc crpc chain_id).ret
          = Except.error "could not resolve the app data directory")
    ∧ ∀ base cfg, env.app_data_dir = some base →
        Event.build cfg ∈ (start_helios env st rpc crpc chain_id).trace →
        cfg.data_dir = base ++ ["helios"] := by
  constructor
  · intro hd
    simp [start_helios, hd]
  · intro base cfg hd h
    cases hn : get_network chain_id with
    | error e2 => simp [start_helios, hd, hn] at h
    | ok nw =>
      cases hb : env.build
          ⟨nw, rpc, crpc.getD "https://www.lightclientdata.org",
            base ++ ["helios"]⟩ with
      | error e2 =>
        simp [start_helios, hd, hn, hb] at h
        subst h
        rfl
      | ok c =>
        cases hs : env.start c with
        | error e2 =>
          simp [start_helios, hd, hn, hb, hs] at h
          subst h
          rfl
        | ok u =>
          cases u
          simp [start_helios, hd, hn, hb, hs] at h
          subst h
          rfl

/-- C10 witness: an unresolvable directory with unsupported chain id 5 yields
the directory error, and a build reached in the all-success environment uses
the directory ["data"] joined with "helios". -/
theorem C10_witness :
    (start_helios envNoDir (none : HeliosState Nat) "u" none 5).ret
      = Except.error "could not resolve the app data directory"
    ∧ BuildConfig.data_dir
        ⟨Network.Mainnet, "u", "https://www.lightclientdata.org",
          ["data", "helios"]⟩
      = ["data"] ++ ["helios"] :=
  ⟨(C10_datadir_precedence envNoDir none "u" none 5).1 rfl,
    (C10_datadir_precedence envGood (none : HeliosState Nat) "u" none 1).2
      ["data"]
      ⟨Network.Mainnet, "u", "https://www.lightclientdata.org",
        ["data", "helios"]⟩ rfl (by decide)⟩

end Krome
